import Mathlib

/-!
Verification development for the alliance/strata description template script
(src/01_parse_descriptions/01_alliance_template.py).  The script is a linear
tabular pipeline; the definitions below are shallow embeddings of its pure
computations: numeric series are lists of rationals, tables are lists of
structures, and the pandas operations used by the script (quantile, filter,
value_counts, groupby-free column arithmetic, round) are translated to
executable Lean functions.
-/

set_option maxRecDepth 100000

namespace AKVEG

/-! ### Percentile helpers (source lines 76-90)

The script defines percentile_10/25/75/90 as wrappers around the pandas
Series.quantile method at fixed quantiles.  Series.quantile with its default
interpolation computes the standard linear-interpolation quantile of the
sorted values: for a sorted series s of length n and quantile q, with
h = q * (n - 1), i = floor h, the result is s_i + (h - i) * (s_{i+1} - s_i).
The quantile function below embeds that computation.
-/

/-- Floor of a rational number, computed by flooring integer division. -/
def floorQ (q : ℚ) : ℤ := Int.fdiv q.num (q.den : ℤ)

/-- Insert a value into a sorted list of rationals. -/
def insertSorted (x : ℚ) : List ℚ → List ℚ
  | [] => [x]
  | y :: ys => if x ≤ y then x :: y :: ys else y :: insertSorted x ys

/-- Sort a list of rationals ascending (insertion sort). -/
def sortValues : List ℚ → List ℚ
  | [] => []
  | x :: xs => insertSorted x (sortValues xs)

/-- Linear-interpolation quantile of a series, embedding the pandas
Series.quantile method with its default linear interpolation, as called by
the percentile helper functions of the script. -/
def quantile (q : ℚ) (xs : List ℚ) : ℚ :=
  let s := sortValues xs
  let n := s.length
  if n = 0 then 0
  else
    let h := q * ((n : ℚ) - 1)
    let i := floorQ h
    let lo := s.getD i.toNat 0
    let hi := s.getD (i.toNat + 1) lo
    lo + (h - (i : ℚ)) * (hi - lo)

/-- Source lines 77-78: percentile_10 returns x.quantile(0.10). -/
def percentile_10 (x : List ℚ) : ℚ := quantile 0.10 x

/-- Source lines 81-82: percentile_25 returns x.quantile(0.25). -/
def percentile_25 (x : List ℚ) : ℚ := quantile 0.25 x

/-- Source lines 85-86: percentile_75 returns x.quantile(0.75). -/
def percentile_75 (x : List ℚ) : ℚ := quantile 0.75 x

/-- Source lines 89-90: percentile_90 returns x.quantile(0.90). -/
def percentile_90 (x : List ℚ) : ℚ := quantile 0.90 x

/-! ### Diagnostic-set and species-composition inclusion rule
(source lines 778-782 and 976-980)

Both stats_diagnostic and stats_composition are filtered by the same boolean
expression on the columns constancy, mean and 75th percentile. -/

/-- One row of the joined constancy/cover statistics tables, carrying the
three columns the inclusion filter reads. -/
structure StatsRow where
  constancy : ℚ
  mean : ℚ
  percentile75 : ℚ
deriving DecidableEq

/-- The boolean filter expression applied to stats_diagnostic (lines 778-782)
and stats_composition (lines 976-980): 75th percentile at least 1, and either
constancy at least 25 with mean at least 2, or constancy at least 50 with
mean at least 1. -/
def stats_keep (r : StatsRow) : Bool :=
  decide (r.percentile75 ≥ 1) &&
    ((decide (r.constancy ≥ 25) && decide (r.mean ≥ 2)) ||
     (decide (r.constancy ≥ 50) && decide (r.mean ≥ 1)))

/-- The row filter applied to both floristic statistics tables. -/
def floristic_limits (rows : List StatsRow) : List StatsRow :=
  rows.filter stats_keep

/-- C1: the diagnostic-set and species-composition inclusion rule keeps a
statistics row if and only if its 75th percentile is at least 1 and either
(constancy at least 25 and mean at least 2) or (constancy at least 50 and
mean at least 1); it accepts the row (constancy 30, mean 2.5, p75 1.2) and
rejects the row (constancy 10, mean 5, p75 2). -/
theorem C1_inclusion_rule :
    (∀ (rows : List StatsRow) (r : StatsRow),
      r ∈ floristic_limits rows ↔
        r ∈ rows ∧ (r.percentile75 ≥ 1 ∧
          ((r.constancy ≥ 25 ∧ r.mean ≥ 2) ∨ (r.constancy ≥ 50 ∧ r.mean ≥ 1)))) ∧
    stats_keep ⟨30, 2.5, 1.2⟩ = true ∧ stats_keep ⟨10, 5, 2⟩ = false := by
  refine ⟨fun rows r => ?_, by with_unfolding_all decide, by with_unfolding_all decide⟩
  simp [floristic_limits, stats_keep, List.mem_filter, and_assoc]

/-- C6: each percentile helper is the linear-interpolation quantile at its
fixed quantile (0.10, 0.25, 0.75, 0.90), and on the series
[1,2,3,4,5,6,7,8,9,10] the helpers return 1.9, 3.25, 7.75 and 9.1. -/
theorem C6_percentile_helpers :
    (∀ x : List ℚ,
      percentile_10 x = quantile 0.10 x ∧ percentile_25 x = quantile 0.25 x ∧
      percentile_75 x = quantile 0.75 x ∧ percentile_90 x = quantile 0.90 x) ∧
    percentile_10 [1, 2, 3, 4, 5, 6, 7, 8, 9, 10] = 1.9 ∧
    percentile_25 [1, 2, 3, 4, 5, 6, 7, 8, 9, 10] = 3.25 ∧
    percentile_75 [1, 2, 3, 4, 5, 6, 7, 8, 9, 10] = 7.75 ∧
    percentile_90 [1, 2, 3, 4, 5, 6, 7, 8, 9, 10] = 9.1 := by
  refine ⟨fun x => ⟨rfl, rfl, rfl, rfl⟩, ?_, ?_, ?_, ?_⟩ <;> with_unfolding_all decide

/-! ### Structure treemap summary (source lines 592-618)

The biotic structure means (vascular, bryophyte, lichen habit means) are
concatenated; the abiotic top-cover means are rescaled by
(100 - biotic sum) / (abiotic sum); the concatenated summary is rounded to
one decimal and rows with non-positive means are removed. -/

/-- Round-half-to-even of a rational to an integer, as used by the numpy
round function underlying the pandas DataFrame round method. -/
def roundHalfEven (q : ℚ) : ℤ :=
  let f := floorQ q
  let frac := q - (f : ℚ)
  if frac < 1 / 2 then f
  else if frac > 1 / 2 then f + 1
  else if f % 2 = 0 then f else f + 1

/-- Rounding to one decimal place, the round(1) call of line 612. -/
def round1 (q : ℚ) : ℚ := (roundHalfEven (q * 10) : ℚ) / 10

/-- Source lines 596-611: the concatenation of the biotic structure means
with the abiotic top-cover means rescaled by
(100 - sum of biotic means) / (sum of abiotic means), before the round(1)
and the removal of non-positive rows. -/
def structure_concat (biotic abiotic : List ℚ) : List ℚ :=
  let biotic_sum := biotic.sum
  let abiotic_remainder := 100 - biotic_sum
  let abiotic_sum := abiotic.sum
  let abiotic_adjustment := abiotic_remainder / abiotic_sum
  biotic ++ abiotic.map (fun m => m * abiotic_adjustment)

/-- Source lines 611-618: the structure summary fed to the treemap, i.e. the
concatenated means rounded to one decimal with zero (and negative) values
removed. -/
def structure_summary (biotic abiotic : List ℚ) : List ℚ :=
  ((structure_concat biotic abiotic).map round1).filter (fun m => m > 0)

/-- Sum of a list after multiplying every element by a constant. -/
theorem sum_map_mul_const (l : List ℚ) (c : ℚ) :
    (l.map (fun m => m * c)).sum = l.sum * c := by
  induction l with
  | nil => simp
  | cons x xs ih => simp [ih, add_mul]

/-- C2 counterexample: for biotic means [1/25, 1/25] and abiotic means [1],
the structure treemap summary (which is rounded to one decimal and stripped
of non-positive rows, lines 611-618) sums to 99.9, not 100. -/
theorem C2_counterexample :
    (structure_summary [1 / 25, 1 / 25] [1]).sum = 999 / 10 ∧
    (structure_summary [1 / 25, 1 / 25] [1]).sum ≠ 100 := by
  constructor <;> with_unfolding_all decide

/-- C2 amended: for every input pair of biotic means and abiotic means with
nonzero abiotic sum, the concatenated structure values immediately after the
abiotic rescaling step, before the one-decimal rounding and the removal of
non-positive rows, sum to exactly 100. -/
theorem C2_structure_concat_sum (biotic abiotic : List ℚ)
    (h : abiotic.sum ≠ 0) :
    (structure_concat biotic abiotic).sum = 100 := by
  unfold structure_concat
  rw [List.sum_append, sum_map_mul_const]
  field_simp

/-- C2 witness: the amended theorem at biotic means [30] and abiotic means
[50]. -/
theorem C2_structure_concat_sum_witness :
    ([(50 : ℚ)].sum ≠ 0) ∧ (structure_concat [30] [50]).sum = 100 :=
  ⟨by norm_num, C2_structure_concat_sum [30] [50] (by norm_num)⟩

/-! ### Sentinel-value filtering before statistics (source lines 497-532,
1182-1300)

Each measurement series is reduced to its value column, nulls are dropped,
and rows equal to the missing-data code of that series are removed by a
filter of the form data[data[column] != sentinel] before the statistics
aggregation.  The codes are -999 for shrub canopy height (line 501), whole
tussock cover (line 520), water depth (line 1218), moss/duff depth
(line 1235), restrictive-layer depth (line 1254), pH (line 1271) and
conductivity (line 1288), and -32768 for elevation (line 1184) and slope
(line 1201). -/

/-- The sentinel filter data[data[column] != sentinel] applied to a value
series. -/
def sentinel_filter (sentinel : ℚ) (xs : List ℚ) : List ℚ :=
  xs.filter (fun v => v ≠ sentinel)

/-- The nine measurement series filtered before statistics, each with the
missing-data code its filter removes. -/
def series_sentinels : List (String × ℚ) :=
  [("height_cm", -999), ("cover_percent", -999),
   ("elevation_m", -32768), ("slope_deg", -32768),
   ("depth_water_cm", -999), ("depth_moss_duff_cm", -999),
   ("depth_restrictive_layer_cm", -999), ("ph", -999),
   ("conductivity_mus", -999)]

/-- C4: for every measurement series, the sentinel filter applied before
statistics removes every row whose value equals the missing-data code of
that series and no other row: the code has count zero in the filtered
series, and every other value keeps its exact multiplicity. -/
theorem C4_sentinel_filter_exact :
    ∀ p ∈ series_sentinels, ∀ xs : List ℚ,
      List.count p.2 (sentinel_filter p.2 xs) = 0 ∧
      ∀ v : ℚ, v ≠ p.2 →
        List.count v (sentinel_filter p.2 xs) = List.count v xs := by
  intro p _ xs
  constructor
  · refine List.count_eq_zero.mpr (fun hmem => ?_)
    have := (List.mem_filter.mp hmem).2
    simp at this
  · intro v hv
    refine List.count_filter ?_
    simp [hv]

/-- C4 witness: the height_cm series with code -999, on the series
[3, -999, 5, 7]: the code is removed and the value 7 keeps its
multiplicity. -/
theorem C4_sentinel_filter_exact_witness :
    List.count (-999 : ℚ) (sentinel_filter (-999) [3, -999, 5, 7]) = 0 ∧
    List.count (7 : ℚ) (sentinel_filter (-999) [3, -999, 5, 7]) =
      List.count (7 : ℚ) [3, -999, 5, 7] :=
  ⟨(C4_sentinel_filter_exact ("height_cm", -999) (by with_unfolding_all decide)
      [3, -999, 5, 7]).1,
   (C4_sentinel_filter_exact ("height_cm", -999) (by with_unfolding_all decide)
      [3, -999, 5, 7]).2 7 (by with_unfolding_all decide)⟩

/-! ### Vegetation cover processing (source lines 278-302)

The vegetation cover query result keeps one row per cover observation; the
cover_percent column is made numeric and -999 explicit-absence values are
replaced by 0 (lines 279-281); the rows are then filtered by cover type and
dead status. -/

/-- One vegetation cover observation row, with the columns the processing
steps read. -/
structure CoverRow where
  site_visit_code : String
  name_accepted : String
  cover_percent : ℚ
  cover_type : String
  dead_status : Bool
deriving DecidableEq

/-- Source lines 279-281: the cover_percent column with -999 replaced by 0;
every row is kept and only the value changes. -/
def vegetation_cover_clean (rows : List CoverRow) : List CoverRow :=
  rows.map (fun r =>
    { r with cover_percent := if r.cover_percent = -999 then 0 else r.cover_percent })

/-- C5: a cover observation with cover_percent -999 is not dropped by the
vegetation processing: the replacement step keeps every row in place and
rewrites the value -999 to 0, leaving all other values unchanged, so the
row still counts as an occurrence row with zero cover. -/
theorem C5_explicit_absence_retained :
    (∀ (pre post : List CoverRow) (r : CoverRow),
      vegetation_cover_clean (pre ++ r :: post) =
        vegetation_cover_clean pre ++
          ({ r with cover_percent := if r.cover_percent = -999 then 0
              else r.cover_percent } :: vegetation_cover_clean post)) ∧
    (∀ rows : List CoverRow,
      (vegetation_cover_clean rows).length = rows.length) ∧
    vegetation_cover_clean
        [⟨"SV1", "Carex aquatilis", -999, "absolute foliar cover", false⟩] =
      [⟨"SV1", "Carex aquatilis", 0, "absolute foliar cover", false⟩] := by
  refine ⟨fun pre post r => ?_, fun rows => ?_, by with_unfolding_all decide⟩
  · simp [vegetation_cover_clean]
  · simp [vegetation_cover_clean]

/-! ### Site-visit filtering and the injected WHERE clause
(source lines 162-259)

The site-visit table is filtered by observation year, perspective, vascular
scope, and finally by the raster-derived vegetation label equalling the
target unit name (line 219).  Only then is the WHERE clause built from the
remaining site_visit_code values (lines 255-259), and every subsequent query
is restricted to those codes. -/

/-- One site-visit row with the columns read by the filter chain. -/
structure SiteVisit where
  site_visit_code : String
  obs_year : ℤ
  perspective : String
  scope_vascular : String
  veg_type : String
deriving DecidableEq

/-- Source lines 162-171 and 219: the site-visit filter chain, ending with
the filter to rows whose raster-derived veg_type equals the unit name. -/
def site_visit_filtered (unit_name : String) (rows : List SiteVisit) :
    List SiteVisit :=
  ((((rows.filter (fun r => r.obs_year ≥ 2000)).filter
      (fun r => r.perspective = "ground")).filter
      (fun r => r.scope_vascular = "exhaustive" ∨
        r.scope_vascular = "non-trace species")).filter
      (fun r => r.veg_type = unit_name))

/-- Source lines 255-259: the site_visit_code values injected into the
WHERE clause, taken from the already-filtered site-visit table. -/
def input_sql_codes (unit_name : String) (rows : List SiteVisit) :
    List String :=
  (site_visit_filtered unit_name rows).map (fun r => r.site_visit_code)

/-- A downstream query restricted by the injected clause
WHERE site_visit.site_visit_code IN (codes): only table rows whose code is
in the list survive. -/
def downstream_query (codes : List String) (table : List (String × ℚ)) :
    List (String × ℚ) :=
  table.filter (fun row => row.1 ∈ codes)

/-- C3: the WHERE clause is built from the site-visit table after the filter
to the target unit, so every site visit it names has the unit as its
raster-derived label, and every row of every downstream query traces back to
such a site visit: no site visit outside the unit contributes to any later
aggregate. -/
theorem C3_unit_provenance (unit_name : String) (visits : List SiteVisit)
    (table : List (String × ℚ)) :
    (∀ v ∈ site_visit_filtered unit_name visits, v.veg_type = unit_name) ∧
    (∀ row ∈ downstream_query (input_sql_codes unit_name visits) table,
      row ∈ table ∧ ∃ v ∈ site_visit_filtered unit_name visits,
        v ∈ visits ∧ v.site_visit_code = row.1 ∧ v.veg_type = unit_name) := by
  have hmem : ∀ v ∈ site_visit_filtered unit_name visits,
      v ∈ visits ∧ v.veg_type = unit_name := by
    intro v hv
    simp only [site_visit_filtered, List.mem_filter, decide_eq_true_eq] at hv
    exact ⟨hv.1.1.1.1, hv.2⟩
  constructor
  · exact fun v hv => (hmem v hv).2
  · intro row hrow
    have h1 := List.mem_filter.mp hrow
    refine ⟨h1.1, ?_⟩
    have h2 : row.1 ∈ input_sql_codes unit_name visits := by
      simpa using h1.2
    obtain ⟨v, hv, hcode⟩ := List.mem_map.mp h2
    exact ⟨v, hv, (hmem v hv).1, hcode, (hmem v hv).2⟩

/-- C3 witness: with one site visit labelled with the unit and one labelled
otherwise, the downstream row with the in-unit code survives and traces back
to the in-unit site visit. -/
theorem C3_unit_provenance_witness :
    ("SV1", (5 : ℚ)) ∈ [("SV1", (5 : ℚ)), ("SV2", 7)] ∧
    ∃ v ∈ site_visit_filtered "Unit A"
        [⟨"SV1", 2015, "ground", "exhaustive", "Unit A"⟩,
         ⟨"SV2", 2016, "ground", "exhaustive", "Unit B"⟩],
      v ∈ [(⟨"SV1", 2015, "ground", "exhaustive", "Unit A"⟩ : SiteVisit),
           ⟨"SV2", 2016, "ground", "exhaustive", "Unit B"⟩] ∧
      v.site_visit_code = ("SV1", (5 : ℚ)).1 ∧ v.veg_type = "Unit A" :=
  (C3_unit_provenance "Unit A"
      [⟨"SV1", 2015, "ground", "exhaustive", "Unit A"⟩,
       ⟨"SV2", 2016, "ground", "exhaustive", "Unit B"⟩]
      [("SV1", 5), ("SV2", 7)]).2 ("SV1", 5) (by with_unfolding_all decide)

/-! ### Constancy computation (source lines 703-717 and 872-894)

For species composition the script counts, for each accepted name, the
number of ROWS of the group table bearing that name (value_counts, line 874)
and divides by the number of distinct site visits in the table (line 878),
times 100.  For diagnostic sets the same computation runs on tables that
were first grouped by (site visit, diagnostic set), so there each row count
is a distinct-visit count. -/

/-- Source line 874: value_counts of the accepted-name column, i.e. the
number of rows of the table bearing the name. -/
def value_counts (t : List CoverRow) (n : String) : ℕ :=
  (t.filter (fun r => r.name_accepted = n)).length

/-- Source line 878: the number of distinct site visits appearing in the
table, len of unique site_visit_code. -/
def distinct_site_visits (t : List CoverRow) : ℕ :=
  ((t.map (fun r => r.site_visit_code)).dedup).length

/-- Source lines 873-878: the constancy value the script computes for an
accepted name, occurrences divided by distinct site visits, times 100. -/
def constancy_vascular (t : List CoverRow) (n : String) : ℚ :=
  ((value_counts t n : ℚ) / (distinct_site_visits t : ℚ)) * 100

/-- The number of distinct site visits of the table in which the name
occurs at all. -/
def distinct_site_visits_with (t : List CoverRow) (n : String) : ℕ :=
  (((t.filter (fun r => r.name_accepted = n)).map
      (fun r => r.site_visit_code)).dedup).length

/-- Constancy as the claim words it: the percentage of distinct site visits
of the group table in which the name occurs at all. -/
def spec_constancy (t : List CoverRow) (n : String) : ℚ :=
  ((distinct_site_visits_with t n : ℚ) / (distinct_site_visits t : ℚ)) * 100

/-- C7 counterexample: on a table holding two rows of taxon A in the same
site visit, the script computes constancy 200 while the percentage of site
visits containing A is 100, so the computed constancy is not the claimed
percentage. -/
theorem C7_counterexample :
    constancy_vascular
        [⟨"v1", "A", 5, "absolute foliar cover", false⟩,
         ⟨"v1", "A", 3, "absolute foliar cover", false⟩] "A" = 200 ∧
    spec_constancy
        [⟨"v1", "A", 5, "absolute foliar cover", false⟩,
         ⟨"v1", "A", 3, "absolute foliar cover", false⟩] "A" = 100 ∧
    constancy_vascular
        [⟨"v1", "A", 5, "absolute foliar cover", false⟩,
         ⟨"v1", "A", 3, "absolute foliar cover", false⟩] "A" ≠
      spec_constancy
        [⟨"v1", "A", 5, "absolute foliar cover", false⟩,
         ⟨"v1", "A", 3, "absolute foliar cover", false⟩] "A" := by
  refine ⟨?_, ?_, ?_⟩ <;> with_unfolding_all decide

/-- Lists of rows sharing one accepted name have distinct site-visit codes
whenever the (site visit, name) pairs are distinct. -/
theorem nodup_codes_of_nodup_pairs (n : String) :
    ∀ l : List CoverRow, (∀ r ∈ l, r.name_accepted = n) →
      (l.map (fun r => (r.site_visit_code, r.name_accepted))).Nodup →
      (l.map (fun r => r.site_visit_code)).Nodup := by
  intro l
  induction l with
  | nil => simp
  | cons r l ih =>
    intro hall hnd
    simp only [List.map_cons, List.nodup_cons] at hnd ⊢
    obtain ⟨hhead, htail⟩ := hnd
    refine ⟨?_, ih (fun x hx => hall x (List.mem_cons_of_mem _ hx)) htail⟩
    intro hmemc
    obtain ⟨r2, hr2, hcode⟩ := List.mem_map.mp hmemc
    apply hhead
    refine List.mem_map.mpr ⟨r2, hr2, ?_⟩
    have h1 : r.name_accepted = n := hall r (List.mem_cons_self r l)
    have h2 : r2.name_accepted = n := hall r2 (List.mem_cons_of_mem _ hr2)
    simp [hcode, h1, h2]

/-- C7 amended: the computed constancy is 100 times the number of occurrence
rows divided by the number of distinct site visits of the group table; it
equals the claimed percentage of distinct site visits containing the taxon
exactly when the table holds at most one row per (site visit, accepted name)
pair, as is the case for the grouped diagnostic-set, bryophyte and lichen
tables but is not guaranteed for the ungrouped vascular table. -/
theorem C7_constancy_amended (t : List CoverRow) (n : String)
    (h : (t.map (fun r => (r.site_visit_code, r.name_accepted))).Nodup) :
    constancy_vascular t n = spec_constancy t n := by
  have hsub : (t.filter (fun r => r.name_accepted = n)).Sublist t :=
    List.filter_sublist t
  have hndpairs :
      ((t.filter (fun r => r.name_accepted = n)).map
        (fun r => (r.site_visit_code, r.name_accepted))).Nodup :=
    h.sublist (hsub.map _)
  have hall : ∀ r ∈ t.filter (fun r => r.name_accepted = n),
      r.name_accepted = n := by
    intro r hr
    have := (List.mem_filter.mp hr).2
    simpa using this
  have hcodes := nodup_codes_of_nodup_pairs n _ hall hndpairs
  have key : distinct_site_visits_with t n = value_counts t n := by
    unfold distinct_site_visits_with value_counts
    rw [List.Nodup.dedup hcodes, List.length_map]
  unfold constancy_vascular spec_constancy
  rw [key]

/-- C7 witness: on a duplicate-free table with taxon A in one of two site
visits, the computed constancy equals the claimed percentage. -/
theorem C7_constancy_amended_witness :
    (([⟨"v1", "A", 5, "absolute foliar cover", false⟩,
       ⟨"v2", "B", 3, "absolute foliar cover", false⟩] : List CoverRow).map
        (fun r => (r.site_visit_code, r.name_accepted))).Nodup ∧
    constancy_vascular
        [⟨"v1", "A", 5, "absolute foliar cover", false⟩,
         ⟨"v2", "B", 3, "absolute foliar cover", false⟩] "A" =
      spec_constancy
        [⟨"v1", "A", 5, "absolute foliar cover", false⟩,
         ⟨"v2", "B", 3, "absolute foliar cover", false⟩] "A" :=
  ⟨by with_unfolding_all decide,
   C7_constancy_amended _ "A" (by with_unfolding_all decide)⟩

/-! ### Markdown field parsing (source lines 92-125)

The function parse_markdown searches the file content for the regular
expression pattern built from two literal asterisks, the label, a colon, two
literal asterisks, then a greedy whitespace run and a captured run of
non-newline characters; the captured group is returned stripped, and None is
returned when there is no match (or when the file is missing, line 112).
The whitespace class matches newlines, so the greedy run can cross the end
of the marker line when the remainder of that line is blank. -/

/-- Whitespace characters of the regular-expression whitespace class (space,
tab, newline, carriage return, vertical tab, form feed). -/
def isSpace (c : Char) : Bool :=
  decide (c = ' ') || decide (c = '\t') || decide (c = '\n') ||
    decide (c = '\r') || decide (c = '\x0b') || decide (c = '\x0c')

/-- Whether the first list is a leading segment of the second. -/
def beginsWith : List Char → List Char → Bool
  | [], _ => true
  | _ :: _, [] => false
  | a :: as, b :: bs => decide (a = b) && beginsWith as bs

/-- The literal text the pattern of line 98 matches before the whitespace
run: two asterisks, the label, a colon and two asterisks. -/
def marker (label : List Char) : List Char :=
  '*' :: '*' :: (label ++ [':', '*', '*'])

/-- The suffix of the content just after the leftmost occurrence of the
needle, none when the needle does not occur (leftmost search as performed by
the regular-expression search of line 107). -/
def searchAfter (needle : List Char) : List Char → Option (List Char)
  | [] => if beginsWith needle [] then some [] else none
  | c :: rest =>
    if beginsWith needle (c :: rest) then
      some (List.drop needle.length (c :: rest))
    else searchAfter needle rest

/-- Remove trailing whitespace. -/
def rstrip (l : List Char) : List Char := ((l.reverse).dropWhile isSpace).reverse

/-- Remove leading and trailing whitespace, the Python strip of line 109. -/
def strip (l : List Char) : List Char := rstrip (l.dropWhile isSpace)

/-- Source lines 93-116 for present file content: find the leftmost marker
occurrence; after it the greedy whitespace run (which can cross newlines)
is skipped, the following run of non-newline characters is captured, and
the captured text is returned stripped; none when the marker is absent. -/
def parse_markdown (content label : List Char) : Option (List Char) :=
  match searchAfter (marker label) content with
  | none => none
  | some rest =>
      some (strip ((rest.dropWhile isSpace).takeWhile (fun ch => ch ≠ '\n')))

/-- The behaviour the claim words describe: the stripped remainder of the
line on which the label marker occurs, i.e. the text from just after the
marker to the end of that line, stripped; null when the marker is absent. -/
def spec_field_value (content label : List Char) : Option (List Char) :=
  match searchAfter (marker label) content with
  | none => none
  | some rest => some (strip (rest.takeWhile (fun ch => ch ≠ '\n')))

/-- When the remainder of the marker line holds at least one non-whitespace
character, skipping the greedy whitespace run before capturing up to the
newline gives the same stripped text as capturing the whole remainder of
the line. -/
theorem strip_dropWhile_takeWhile (rest : List Char)
    (h : ∃ c ∈ rest.takeWhile (fun ch => ch ≠ '\n'), isSpace c = false) :
    strip ((rest.dropWhile isSpace).takeWhile (fun ch => ch ≠ '\n')) =
      strip (rest.takeWhile (fun ch => ch ≠ '\n')) := by
  induction rest with
  | nil => simp at h
  | cons c rest ih =>
    by_cases hc : isSpace c = true
    · by_cases hn : c = '\n'
      · subst hn
        simp [List.takeWhile_cons] at h
      · have hdrop : (c :: rest).dropWhile isSpace = rest.dropWhile isSpace := by
          simp [List.dropWhile_cons, hc]
        have htake : (c :: rest).takeWhile (fun ch => ch ≠ '\n') =
            c :: rest.takeWhile (fun ch => ch ≠ '\n') := by
          simp [List.takeWhile_cons, hn]
        rw [hdrop, htake]
        have h' : ∃ x ∈ rest.takeWhile (fun ch => ch ≠ '\n'), isSpace x = false := by
          obtain ⟨x, hx, hxs⟩ := h
          rw [htake] at hx
          rcases List.mem_cons.mp hx with rfl | hx2
          · rw [hc] at hxs; cases hxs
          · exact ⟨x, hx2, hxs⟩
        rw [ih h']
        simp [strip, List.dropWhile_cons, hc]
    · simp [List.dropWhile_cons, hc]

/-- C8 counterexample: on the content holding the marker line with a blank
remainder followed by a value line, the parser returns the next line rather
than the stripped (empty) remainder of the marker line, because the greedy
whitespace run crosses the newline. -/
theorem C8_counterexample :
    parse_markdown ("**Photos:**\nX".toList) ("Photos".toList) =
      some ("X".toList) ∧
    spec_field_value ("**Photos:**\nX".toList) ("Photos".toList) = some [] ∧
    parse_markdown ("**Photos:**\nX".toList) ("Photos".toList) ≠
      spec_field_value ("**Photos:**\nX".toList) ("Photos".toList) := by
  refine ⟨?_, ?_, ?_⟩ <;> with_unfolding_all decide

/-- C8 amended: the parser returns null exactly when the label marker is
absent from the content, and whenever the remainder of the marker line
holds at least one non-whitespace character it returns the stripped
remainder of that line; on the line of the unit-name example it extracts
the expected text.  (When the remainder of the marker line is entirely
whitespace, the greedy whitespace run crosses the newline and text of a
later line can be returned instead.) -/
theorem C8_parse_markdown_amended (content label : List Char) :
    (parse_markdown content label = none ↔
      searchAfter (marker label) content = none) ∧
    (∀ rest, searchAfter (marker label) content = some rest →
      (∃ c ∈ rest.takeWhile (fun ch => ch ≠ '\n'), isSpace c = false) →
      parse_markdown content label = spec_field_value content label) ∧
    parse_markdown ("**Unit Name:** Wet Sedge Meadow".toList)
        ("Unit Name".toList) = some ("Wet Sedge Meadow".toList) := by
  refine ⟨?_, ?_, by with_unfolding_all decide⟩
  · unfold parse_markdown
    cases hs : searchAfter (marker label) content <;> simp
  · intro rest hrest hex
    unfold parse_markdown spec_field_value
    rw [hrest]
    exact congrArg some (strip_dropWhile_takeWhile rest hex)

/-- C8 witness: the amended theorem applied to the unit-name example line,
whose remainder is nonblank. -/
theorem C8_parse_markdown_amended_witness :
    (∃ c ∈ (" Wet Sedge Meadow".toList).takeWhile (fun ch => ch ≠ '\n'),
      isSpace c = false) ∧
    parse_markdown ("**Unit Name:** Wet Sedge Meadow".toList)
        ("Unit Name".toList) =
      spec_field_value ("**Unit Name:** Wet Sedge Meadow".toList)
        ("Unit Name".toList) :=
  ⟨by with_unfolding_all decide,
   (C8_parse_markdown_amended ("**Unit Name:** Wet Sedge Meadow".toList)
       ("Unit Name".toList)).2.1 (" Wet Sedge Meadow".toList)
     (by with_unfolding_all decide) (by with_unfolding_all decide)⟩

/-! ### Missing markdown file and the photo list (source lines 104-125)

With a missing input file, parse_markdown catches the FileNotFoundError,
prints a warning and returns the initial null value; line 125 then calls
split on the null photo text, which raises.  The file content is modelled
as an Option with none for the missing file; the split call on an optional
text is modelled as an Except value with the error standing for the raised
AttributeError. -/

/-- Source lines 104-116: parse_markdown on a possibly missing file; a
missing file yields the null output (the printed warning is an effect
outside the embedding). -/
def parse_markdown_file (file : Option (List Char)) (label : List Char) :
    Option (List Char) :=
  match file with
  | none => none
  | some content => parse_markdown content label

/-- Python str.split at the separator of line 125, a comma followed by a
space. -/
def splitCommaSpace : List Char → List (List Char)
  | [] => [[]]
  | ',' :: ' ' :: rest => [] :: splitCommaSpace rest
  | c :: rest =>
    match splitCommaSpace rest with
    | [] => [[c]]
    | h :: t => (c :: h) :: t

/-- Source line 125: photo_list is photo_text split at comma-space; split
called on a null photo_text raises, modelled as the error value. -/
def photo_list (photo_text : Option (List Char)) :
    Except Unit (List (List Char)) :=
  match photo_text with
  | none => Except.error ()
  | some t => Except.ok (splitCommaSpace t)

/-- C9: with a missing markdown file the parser returns null for every
label, and the subsequent split of the null photo text is the raising step;
on a present text the split returns the comma-space separated photo names. -/
theorem C9_missing_file_null_then_crash :
    (∀ label : List Char, parse_markdown_file none label = none) ∧
    photo_list (parse_markdown_file none ("Photos".toList)) =
      Except.error () ∧
    photo_list (some ("a.jpg, b.jpg".toList)) =
      Except.ok ["a.jpg".toList, "b.jpg".toList] := by
  refine ⟨fun label => rfl, rfl, by with_unfolding_all rfl⟩

/-! ### Categorical environment summaries (source lines 1108-1179)

For each of physiography, geomorphology, macrotopography, microtopography
(threshold 10), moisture regime and restrictive layer type (threshold 20),
the script drops null records, computes each category frequency as count
over record number times 100, keeps the categories at or above the
threshold, and joins them into the output text.  Surface water (lines
1174-1179) also filters at 20 but then reads only the frequency of the
True category from the filtered table and outputs that number as the text;
the read raises a KeyError when the True row was filtered out. -/

/-- The dropna step on one column of records. -/
def nonnull {α : Type} (xs : List (Option α)) : List α := xs.filterMap id

/-- value_counts of one category: the number of records equal to it. -/
def cat_count {α : Type} [DecidableEq α] (xs : List α) (c : α) : ℕ :=
  (xs.filter (fun v => v = c)).length

/-- The relative frequency of a category among the records, count over
record number times 100 (lines 1111, 1122, 1133, 1144, 1155, 1166, 1177). -/
def cat_frequency {α : Type} [DecidableEq α] (xs : List α) (c : α) : ℚ :=
  ((cat_count xs c : ℚ) / (xs.length : ℚ)) * 100

/-- The distinct categories kept by the frequency threshold filter and
joined into the output text (lines 1112-1117 and the analogous blocks). -/
def kept_categories {α : Type} [DecidableEq α] (threshold : ℚ)
    (xs : List α) : List α :=
  xs.dedup.filter (fun c => cat_frequency xs c ≥ threshold)

/-- One categorical environment field summary: drop nulls, then keep the
categories whose frequency reaches the field threshold. -/
def environment_field_categories (threshold : ℚ)
    (records : List (Option String)) : List String :=
  kept_categories threshold (nonnull records)

/-- The six categorical environment fields with the threshold each block
uses: 10 for physiography, geomorphology, macrotopography and
microtopography, 20 for moisture regime and restrictive layer type. -/
def environment_thresholds : List (String × ℚ) :=
  [("physiography", 10), ("geomorphology", 10), ("macrotopography", 10),
   ("microtopography", 10), ("moisture_regime", 20), ("restrictive_type", 20)]

/-- Source lines 1176-1179: the surface-water summary filters the category
frequencies at 20 and then reads the frequency of the True category from
the filtered table; when the True row was filtered out the read raises,
modelled as the error value. -/
def surfacewater_frequency (xs : List Bool) : Except Unit ℚ :=
  if cat_frequency xs true ≥ 20 then Except.ok (cat_frequency xs true)
  else Except.error ()

/-- The categories the surface-water output text mentions: the True
category when its frequency survived the filter, and nothing otherwise. -/
def surfacewater_included (xs : List Bool) : List Bool :=
  match surfacewater_frequency xs with
  | Except.ok _ => [true]
  | Except.error _ => []

/-- C10 counterexample: with every surface-water record False, the False
category has frequency 100, at the claimed 20 threshold, yet it is not
included in the output text; the summary produces no output at all (the
read of the True row raises). -/
theorem C10_counterexample :
    cat_frequency [false, false] false ≥ 20 ∧
    false ∉ surfacewater_included [false, false] ∧
    surfacewater_frequency [false, false] = Except.error () := by
  refine ⟨?_, ?_, ?_⟩
  · with_unfolding_all decide
  · with_unfolding_all decide
  · with_unfolding_all rfl

/-- C10 amended: for each of the six categorical environment fields, a
category is included in the output text exactly when it occurs among the
non-null records and its relative frequency reaches the field threshold, 10
for physiography, geomorphology, macrotopography and microtopography and 20
for moisture regime and restrictive layer type; the surface-water summary
also uses the 20 threshold but outputs only the frequency of the True
category, produced exactly when that frequency reaches 20, and never
includes a category label. -/
theorem C10_environment_thresholds_amended :
    (∀ p ∈ environment_thresholds,
      ∀ (records : List (Option String)) (c : String),
        c ∈ environment_field_categories p.2 records ↔
          c ∈ nonnull records ∧
            cat_frequency (nonnull records) c ≥ p.2) ∧
    (∀ xs : List Bool,
      surfacewater_frequency xs = Except.ok (cat_frequency xs true) ↔
        cat_frequency xs true ≥ 20) := by
  constructor
  · intro p _ records c
    unfold environment_field_categories kept_categories
    rw [List.mem_filter, List.mem_dedup]
    simp
  · intro xs
    unfold surfacewater_frequency
    by_cases h : cat_frequency xs true ≥ 20 <;> simp [h]

/-- C10 witness: the amended theorem at the physiography field on a small
record list, and at a surface-water list whose True frequency is 50. -/
theorem C10_environment_thresholds_amended_witness :
    ("alluvial plain" ∈ environment_field_categories (10 : ℚ)
        [some "alluvial plain", none, some "floodplain"] ↔
      "alluvial plain" ∈ nonnull
          [some "alluvial plain", none, some "floodplain"] ∧
        cat_frequency
            (nonnull [some "alluvial plain", none, some "floodplain"])
            "alluvial plain" ≥ (10 : ℚ)) ∧
    surfacewater_frequency [true, false] =
      Except.ok (cat_frequency [true, false] true) :=
  ⟨C10_environment_thresholds_amended.1 ("physiography", 10)
      (by with_unfolding_all decide)
      [some "alluvial plain", none, some "floodplain"] "alluvial plain",
   (C10_environment_thresholds_amended.2 [true, false]).mpr
      (by with_unfolding_all decide)⟩

end AKVEG
